import Mathlib

/-!
# Story generator: speech playback controller, paragraph segmentation, history

Shallow embedding of `src/components/StoryGenerator.jsx`.

* JavaScript strings are modelled by `String`; the operations used by the
  component (`split('\n')`, `trim()`, truthiness) are defined on the
  underlying character lists. White space and line breaks are single code
  units, so a character stands for a code unit or a surrogate pair.
* React state is a record `Render`; a closure created during a render is
  represented by the values it captured (the `Render` it was created in).
* Refs (`currentParagraphRef`, `utteranceRef`) and the calls made on
  `window.speechSynthesis` are fields of `State`.
-/

namespace StoryGenerator

/-! ## Strings -/

/-- White space and line terminators removed by `String.prototype.trim`
(ECMAScript `WhiteSpace` and `LineTerminator` productions). -/
def isWhiteSpace (c : Char) : Bool :=
  c.toNat = 0x09 || c.toNat = 0x0A || c.toNat = 0x0B || c.toNat = 0x0C ||
  c.toNat = 0x0D || c.toNat = 0x20 || c.toNat = 0xA0 || c.toNat = 0x1680 ||
  (0x2000 ≤ c.toNat && c.toNat ≤ 0x200A) || c.toNat = 0x2028 ||
  c.toNat = 0x2029 || c.toNat = 0x202F || c.toNat = 0x205F ||
  c.toNat = 0x3000 || c.toNat = 0xFEFF

/-- Character-level `trim`: white space is dropped at both ends. -/
def trimChars (cs : List Char) : List Char :=
  ((cs.dropWhile isWhiteSpace).reverse.dropWhile isWhiteSpace).reverse

/-- The method `p.trim()`. -/
def trim (p : String) : String := ⟨trimChars p.data⟩

/-- Character-level split: the piece before the first separator, and the
remaining pieces. -/
def splitChars (sep : Char) : List Char → List Char × List (List Char)
  | [] => ([], [])
  | c :: cs =>
    if c = sep then ([], (splitChars sep cs).1 :: (splitChars sep cs).2)
    else (c :: (splitChars sep cs).1, (splitChars sep cs).2)

/-- The method `s.split(sep)` for a one-character separator; the empty string
splits into one empty piece. -/
def split (s : String) (sep : Char) : List String :=
  String.mk (splitChars sep s.data).1 :: (splitChars sep s.data).2.map String.mk

/-- Truthiness of a JavaScript string: non-empty. -/
def truthy (s : String) : Bool := !(s.data.isEmpty)

/-- The paragraph sequence of `speakStory`:
`story.split('\n').filter(p => p.trim())`. -/
def segment (story : String) : List String :=
  (split story '\n').filter (fun p => truthy (trim p))

/-- A blank or whitespace-only string. -/
def isBlank (p : String) : Bool := p.data.all isWhiteSpace

/-! ## Data model -/

/-- An entry of `speechSynthesis.getVoices()`. -/
structure Voice where
  name : String
  lang : String

/-- An entry of the saved story history. -/
structure HistoryEntry where
  date : String
  story : String
  prompt : String
  genre : String
  tone : String
  theme : String

/-- The React state of the component as seen by one render. Functions defined
in the component body (`speakStory`, `saveToHistory`, ...) and the callbacks
they create read these values from the render they were created in. -/
structure Render where
  prompt : String
  genre : String
  tone : String
  keywords : String
  story : String
  loading : Bool
  error : String
  storyLength : String
  theme : String
  characterDetails : String
  storyHistory : List HistoryEntry
  showHistory : Bool
  isPlaying : Bool
  selectedVoice : String
  availableVoices : List Voice
  speechRate : Rat

/-- A `SpeechSynthesisUtterance` built by `speakStory`. `text` is `none` when
`paragraphs[currentParagraphRef.current]` is `undefined`. The handlers
`onend` and `onerror` are closures; `paragraphs` and `render` are the values
they captured. -/
structure Utterance where
  text : Option String
  rate : Rat
  voice : Option Voice
  paragraphs : List String
  render : Render

/-- A call made on `window.speechSynthesis`. -/
inductive SynthCall where
  | cancel : SynthCall
  | speak : Utterance → SynthCall

/-- The component: committed React state, the two refs, the calls made so far
on `window.speechSynthesis` (oldest first), the `storyHistory` item of
`localStorage` (read through `JSON.parse`), and the API key constant. -/
structure State where
  react : Render
  currentParagraphRef : Nat
  utteranceRef : Option Utterance
  speechSynthesis : List SynthCall
  localStorage : Option (List HistoryEntry)
  API_KEY : Option String

/-- The state after the first render, before the mount effect runs. -/
def initialState (stored : Option (List HistoryEntry)) (apiKey : Option String) : State where
  react :=
    { prompt := "", genre := "any", tone := "neutral", keywords := "", story := "",
      loading := false, error := "", storyLength := "medium", theme := "modern",
      characterDetails := "", storyHistory := [], showHistory := false,
      isPlaying := false, selectedVoice := "", availableVoices := [], speechRate := 1 }
  currentParagraphRef := 0
  utteranceRef := none
  speechSynthesis := []
  localStorage := stored
  API_KEY := apiKey

/-! ## Voice catalog -/

/-- The function `loadVoices`, given the result of `speechSynthesis.getVoices()`:
`setAvailableVoices(voices); setSelectedVoice(voices[0]?.name || '')`. -/
def loadVoices (voices : List Voice) (s : State) : State :=
  { s with react :=
      { s.react with
        availableVoices := voices
        selectedVoice :=
          match voices.head? with
          | none => ""
          | some v => if truthy v.name then v.name else "" } }

/-- The mount effect: the saved history is loaded when present and truthy,
then `loadVoices()` runs. -/
def mount (voices : List Voice) (s : State) : State :=
  let s1 : State :=
    match s.localStorage with
    | none => s
    | some saved => { s with react := { s.react with storyHistory := saved } }
  loadVoices voices s1

/-! ## Playback controller -/

/-- The function `stopSpeech`. -/
def stopSpeech (s : State) : State :=
  { s with
    speechSynthesis := s.speechSynthesis ++ [SynthCall.cancel]
    react := { s.react with isPlaying := false }
    currentParagraphRef := 0 }

/-- The utterance built by `speakStory` of render `r` for the paragraph at
`cursor`: text `paragraphs[cursor]`, rate `speechRate`, the voice named
`selectedVoice` when `availableVoices` has one, and the two handlers. -/
def newUtterance (r : Render) (paragraphs : List String) (cursor : Nat) : Utterance :=
  { text := paragraphs[cursor]?
    rate := r.speechRate
    voice := r.availableVoices.find? (fun v => v.name == r.selectedVoice)
    paragraphs := paragraphs
    render := r }

/-- The function `speakStory(startFromBeginning)` of render `r`. -/
def speakStory (r : Render) (startFromBeginning : Bool) (s : State) : State :=
  let s1 : State := if startFromBeginning then { s with currentParagraphRef := 0 } else s
  if !(truthy r.story) then s1
  else
    let s2 : State := { s1 with speechSynthesis := s1.speechSynthesis ++ [SynthCall.cancel] }
    let paragraphs := segment r.story
    let s3 : State :=
      if s2.currentParagraphRef ≥ paragraphs.length then { s2 with currentParagraphRef := 0 }
      else s2
    let utterance := newUtterance r paragraphs s3.currentParagraphRef
    { s3 with
      utteranceRef := some utterance
      speechSynthesis := s3.speechSynthesis ++ [SynthCall.speak utterance]
      react := { s3.react with isPlaying := true } }

/-- The handler `utterance.onend` of an utterance created by `speakStory`:
`isPlaying` and `speakStory` are those of the render that created it. -/
def onend (u : Utterance) (s : State) : State :=
  let s1 : State := { s with currentParagraphRef := s.currentParagraphRef + 1 }
  if s1.currentParagraphRef < u.paragraphs.length && u.render.isPlaying then
    speakStory u.render false s1
  else
    { s1 with react := { s1.react with isPlaying := false }, currentParagraphRef := 0 }

/-- The handler `utterance.onerror`. -/
def onerror (_u : Utterance) (s : State) : State :=
  { s with react := { s.react with isPlaying := false } }

/-- The click handler `toggleSpeech` of the current render. -/
def toggleSpeech (s : State) : State :=
  if s.react.isPlaying then stopSpeech s else speakStory s.react true s

/-- The cleanup of the mount effect. -/
def unmount (s : State) : State :=
  match s.utteranceRef with
  | some _ => { s with speechSynthesis := s.speechSynthesis ++ [SynthCall.cancel] }
  | none => s

/-- The utterances handed to `speechSynthesis.speak`, oldest first. -/
def spoken (s : State) : List Utterance :=
  s.speechSynthesis.filterMap fun c =>
    match c with
    | SynthCall.speak u => some u
    | SynthCall.cancel => none

/-! ## History -/

/-- The function `saveToHistory(newStory)` of render `r`; `date` is the value
of `new Date().toLocaleString()`. -/
def saveToHistory (r : Render) (newStory date : String) (s : State) : State :=
  let updatedHistory :=
    ({ date := date, story := newStory, prompt := r.prompt, genre := r.genre,
       tone := r.tone, theme := r.theme } :: r.storyHistory).take 10
  { s with
    react := { s.react with storyHistory := updatedHistory }
    localStorage := some updatedHistory }

/-! ## Story generation -/

/-- The synchronous prefix of `generateStory`, up to the first `await` or the
early return. -/
def generateStory (s : State) : State :=
  let s1 : State :=
    stopSpeech { s with react := { s.react with loading := true, error := "", characterDetails := "" } }
  match s1.API_KEY with
  | some k =>
    if truthy k then s1
    else { s1 with react := { s1.react with
            error := "API key is missing. Please check your environment variables."
            loading := false } }
  | none => { s1 with react := { s1.react with
            error := "API key is missing. Please check your environment variables."
            loading := false } }

/-- Resumption of `generateStory` after the character profile arrives. -/
def generateStoryCharacter (characterProfile : String) (s : State) : State :=
  { s with react := { s.react with characterDetails := characterProfile } }

/-- Resumption of `generateStory` (started in render `r`) after the story
text arrives: `setStory(text); saveToHistory(text)`, then the `finally`. -/
def generateStoryDone (r : Render) (text date : String) (s : State) : State :=
  let s1 : State := { s with react := { s.react with story := text } }
  let s2 := saveToHistory r text date s1
  { s2 with react := { s2.react with loading := false } }

/-- Resumption of `generateStory` in the `catch` branch, then the `finally`. -/
def generateStoryFail (message : String) (s : State) : State :=
  { s with react := { s.react with
      error := "Failed to generate story. Error: " ++ message
      loading := false } }

/-! ## Rendering of the story container -/

/-- A rendered `<p>` of the story container. -/
structure RenderedParagraph where
  key : Nat
  highlighted : Bool
  text : String

/-- The children of `story-container`:
`story.split('\n').map((paragraph, index) => paragraph && <p ...>)`. -/
def storyContainer (story : String) (currentParagraph : Nat) (isPlaying : Bool) :
    List RenderedParagraph :=
  (split story '\n').enum.filterMap fun x =>
    if truthy x.2 then
      some { key := x.1, highlighted := currentParagraph == x.1 && isPlaying, text := x.2 }
    else none

/-- The texts of the rendered paragraphs carrying the highlight class. -/
def highlightedTexts (story : String) (currentParagraph : Nat) (isPlaying : Bool) :
    List String :=
  ((storyContainer story currentParagraph isPlaying).filter (fun p => p.highlighted)).map
    (fun p => p.text)

/-! ## Transition system -/

/-- One event of the component: a handler wired to the UI runs in the current
render; `onend` and `onerror` may fire for any utterance handed to
`speechSynthesis.speak`, any number of times, also after a cancel; a suspended
`generateStory` may resume at any time (the render it was started in is not
tracked, any render is allowed). The function `speakStory` is not wired to the
UI: the component calls it from `toggleSpeech` when `isPlaying` is false and
from `onend` (part of those two events); the event `speakStory` runs it on its
own, with either argument, in a render where `isPlaying` is false. -/
inductive Step : State → State → Prop where
  | mount (voices : List Voice) (s : State) : Step s (mount voices s)
  | loadVoices (voices : List Voice) (s : State) : Step s (loadVoices voices s)
  | setPrompt (v : String) (s : State) : Step s { s with react := { s.react with prompt := v } }
  | setGenre (v : String) (s : State) : Step s { s with react := { s.react with genre := v } }
  | setTone (v : String) (s : State) : Step s { s with react := { s.react with tone := v } }
  | setKeywords (v : String) (s : State) :
      Step s { s with react := { s.react with keywords := v } }
  | setStoryLength (v : String) (s : State) :
      Step s { s with react := { s.react with storyLength := v } }
  | setTheme (v : String) (s : State) : Step s { s with react := { s.react with theme := v } }
  | setShowHistory (s : State) :
      Step s { s with react := { s.react with showHistory := !s.react.showHistory } }
  | setSelectedVoice (v : String) (s : State) :
      Step s { s with react := { s.react with selectedVoice := v } }
  | setSpeechRate (v : Rat) (s : State) :
      Step s { s with react := { s.react with speechRate := v } }
  | toggleSpeech (s : State) : Step s (toggleSpeech s)
  | stopSpeech (s : State) : Step s (stopSpeech s)
  | speakStory (b : Bool) (s : State) (idle : s.react.isPlaying = false) :
      Step s (speakStory s.react b s)
  | onend (u : Utterance) (s : State) (issued : u ∈ spoken s) : Step s (onend u s)
  | onerror (u : Utterance) (s : State) (issued : u ∈ spoken s) : Step s (onerror u s)
  | generateStory (s : State) : Step s (generateStory s)
  | generateStoryCharacter (profile : String) (s : State) :
      Step s (generateStoryCharacter profile s)
  | generateStoryDone (r : Render) (text date : String) (s : State) :
      Step s (generateStoryDone r text date s)
  | generateStoryFail (message : String) (s : State) : Step s (generateStoryFail message s)

/-- States reachable from the initial state. -/
inductive Reachable : State → Prop where
  | init (stored : Option (List HistoryEntry)) (apiKey : Option String) :
      Reachable (initialState stored apiKey)
  | step {s t : State} : Reachable s → Step s t → Reachable t

/-- The invariant behind the cursor bound: between events the cursor is 0,
and every utterance handed to `speechSynthesis.speak` was created in a render
with `isPlaying = false`. -/
def Inv (s : State) : Prop :=
  s.currentParagraphRef = 0 ∧ ∀ u ∈ spoken s, u.render.isPlaying = false

/-! ## Sample states -/

/-- A prior history of ten entries with stories "0" to "9". -/
def tenEntries : List HistoryEntry :=
  ["0", "1", "2", "3", "4", "5", "6", "7", "8", "9"].map fun t : String =>
    { date := "d", story := t, prompt := "", genre := "any", tone := "neutral",
      theme := "modern" }

/-- The state of a mounted, idle component showing `story`. -/
def idleWith (story : String) : State :=
  { initialState none none with
    react := { (initialState none none).react with story := story } }

/-- The state after a first story `"A\nB"` was generated and Play was clicked. -/
def playingSample : State :=
  toggleSpeech
    (generateStoryDone (initialState none (some "key")).react "A\nB" "now"
      (generateStory (initialState none (some "key"))))

/-! ## Segmentation -/

theorem trimChars_eq_nil_iff (cs : List Char) :
    trimChars cs = [] ↔ cs.all isWhiteSpace = true := by
  unfold trimChars
  rw [List.reverse_eq_nil_iff, List.dropWhile_eq_nil_iff]
  constructor
  · intro h
    cases hd : cs.dropWhile isWhiteSpace with
    | nil =>
      rw [List.dropWhile_eq_nil_iff] at hd
      simpa [List.all_eq_true] using hd
    | cons c rest =>
      have hc : isWhiteSpace c = true := h c (by simp [hd])
      have hn := List.head_dropWhile_not isWhiteSpace cs (by simp [hd])
      simp [hd, hc] at hn
  · intro h x hx
    rw [List.all_eq_true] at h
    have hx1 : x ∈ cs.dropWhile isWhiteSpace := by simpa using hx
    exact h x ((List.dropWhile_sublist _).subset hx1)

theorem truthy_trim_iff (p : String) : truthy (trim p) = !isBlank p := by
  unfold truthy trim isBlank
  cases h : List.all p.data isWhiteSpace
  · have : trimChars p.data ≠ [] := by
      intro h0
      rw [trimChars_eq_nil_iff] at h0
      simp [h0] at h
    cases ht : trimChars p.data with
    | nil => exact absurd ht this
    | cons a l => rfl
  · have : trimChars p.data = [] := (trimChars_eq_nil_iff _).2 h
    simp [this]

theorem splitChars_glue (sep : Char) (cs : List Char) :
    (splitChars sep cs).1 ++ ((splitChars sep cs).2.map (fun l => sep :: l)).flatten = cs := by
  induction cs with
  | nil => rfl
  | cons c cs ih =>
    unfold splitChars
    by_cases h : c = sep
    · simp only [h, if_true, List.nil_append, List.map_cons, List.flatten_cons, List.cons_append]
      rw [ih]
    · simp only [h, if_false, List.cons_append]
      rw [ih]

theorem splitChars_sep_free (sep : Char) (cs : List Char) :
    sep ∉ (splitChars sep cs).1 ∧ ∀ l ∈ (splitChars sep cs).2, sep ∉ l := by
  induction cs with
  | nil => simp [splitChars]
  | cons c cs ih =>
    unfold splitChars
    by_cases h : c = sep
    · simp only [h, if_true]
      refine ⟨by simp, ?_⟩
      intro l hl
      rcases List.mem_cons.1 hl with rfl | hl
      · exact ih.1
      · exact ih.2 l hl
    · simp only [h, if_false]
      refine ⟨?_, ih.2⟩
      intro hm
      rcases List.mem_cons.1 hm with rfl | hm
      · exact h rfl
      · exact ih.1 hm

theorem intercalate_go_data (sep acc : String) (l : List String) :
    (String.intercalate.go acc sep l).data =
      acc.data ++ (l.map (fun a => sep.data ++ a.data)).flatten := by
  induction l generalizing acc with
  | nil => simp [String.intercalate.go]
  | cons a l ih =>
    simp [String.intercalate.go, ih, String.data_append, List.append_assoc]

theorem intercalate_split (text : String) :
    String.intercalate "\n" (split text '\n') = text := by
  apply String.ext
  unfold split
  simp only [String.intercalate, intercalate_go_data, List.map_map]
  have h := splitChars_glue '\n' text.data
  have e : (fun a : String => ("\n" : String).data ++ a.data) ∘ String.mk =
      fun l : List Char => '\n' :: l := by
    funext l
    rfl
  rw [e]
  exact h

theorem split_line_free (text : String) : ∀ l ∈ split text '\n', '\n' ∉ l.data := by
  intro l hl
  unfold split at hl
  rcases List.mem_cons.1 hl with rfl | hl
  · exact (splitChars_sep_free '\n' text.data).1
  · rcases List.mem_map.1 hl with ⟨cs, hcs, rfl⟩
    exact (splitChars_sep_free '\n' text.data).2 cs hcs

theorem segment_eq_filter (text : String) :
    segment text = (split text '\n').filter (fun l => !isBlank l) := by
  unfold segment
  congr 1
  funext p
  exact truthy_trim_iff p

/-- C1: the paragraph sequence of `speakStory` has no blank or whitespace-only
entry, and is exactly the list of the non-blank lines of the text in their
original order, where the lines are the pieces between line breaks (joining
them with line breaks gives the text back, and no piece holds a line break);
`segment "A\n\nB\n" = ["A", "B"]` and `segment "" = []`. -/
theorem segment_nonblank_lines (text : String) :
    (∀ p ∈ segment text, isBlank p = false) ∧
    segment text = (split text '\n').filter (fun l => !isBlank l) ∧
    List.Sublist (segment text) (split text '\n') ∧
    String.intercalate "\n" (split text '\n') = text ∧
    (∀ l ∈ split text '\n', '\n' ∉ l.data) ∧
    segment "A\n\nB\n" = ["A", "B"] ∧ segment "" = [] := by
  refine ⟨?_, segment_eq_filter text, ?_, intercalate_split text, split_line_free text,
    by decide, by decide⟩
  · intro p hp
    rw [segment_eq_filter] at hp
    simpa using (List.mem_filter.1 hp).2
  · exact List.filter_sublist _

/-- Instance of `segment_nonblank_lines` at the text `"A\n \nB"`. -/
theorem segment_nonblank_lines_witness :
    (∀ p ∈ segment "A\n \nB", isBlank p = false) ∧
    segment "A\n \nB" = (split "A\n \nB" '\n').filter (fun l => !isBlank l) ∧
    List.Sublist (segment "A\n \nB") (split "A\n \nB" '\n') ∧
    String.intercalate "\n" (split "A\n \nB" '\n') = "A\n \nB" ∧
    (∀ l ∈ split "A\n \nB" '\n', '\n' ∉ l.data) ∧
    segment "A\n\nB\n" = ["A", "B"] ∧ segment "" = [] :=
  segment_nonblank_lines "A\n \nB"

/-- C7 (as stated, refuted): the paragraph sequence of the text `" A "` has
the entry `" A "`, which differs from its trim `"A"`. -/
theorem segment_entry_not_trimmed :
    ¬ (∀ text : String, ∀ p ∈ segment text, p = trim p ∧ p ≠ "") := by
  intro h
  have h1 := (h " A " " A " (by decide)).1
  revert h1
  decide

/-- C7 (amended): every entry of the paragraph sequence is one of the lines
of the text, unchanged, is non-empty and has a non-empty trim (it holds a
character that is not white space). -/
theorem segment_entry_untrimmed_line (text : String) (p : String) (hp : p ∈ segment text) :
    p ∈ split text '\n' ∧ p ≠ "" ∧ trim p ≠ "" ∧ isBlank p = false := by
  have hb : isBlank p = false := (segment_nonblank_lines text).1 p hp
  have ht : truthy (trim p) = true := by rw [truthy_trim_iff, hb]; rfl
  refine ⟨(List.filter_sublist _).subset hp, ?_, ?_, hb⟩
  · intro h0
    rw [h0] at hb
    revert hb
    decide
  · intro h0
    rw [h0] at ht
    revert ht
    decide

/-- Instance of `segment_entry_untrimmed_line` at the text `" A "`. -/
theorem segment_entry_untrimmed_line_witness :
    " A " ∈ segment " A " ∧
    (" A " ∈ split " A " '\n' ∧ (" A " : String) ≠ "" ∧ trim " A " ≠ "" ∧
      isBlank " A " = false) :=
  ⟨by decide, segment_entry_untrimmed_line " A " " A " (by decide)⟩

/-! ## Stop -/

/-- C3: from every state, `stopSpeech` issues `speechSynthesis.cancel()` and
leaves `isPlaying = false` and the cursor `currentParagraphRef` at 0. -/
theorem stopSpeech_idle_cursor_zero (s : State) :
    (stopSpeech s).speechSynthesis = s.speechSynthesis ++ [SynthCall.cancel] ∧
    (stopSpeech s).react.isPlaying = false ∧
    (stopSpeech s).currentParagraphRef = 0 :=
  ⟨rfl, rfl, rfl⟩

/-! ## History -/

/-- C5: `saveToHistory` stores (in React state and in `localStorage`) the new
entry followed by the prior history, cut to its first 10 elements: at most 10
entries, the new entry first; when the prior history has 10 entries the stored
list has exactly 10, entries 0..8 of the prior list sit at indices 1..9 and
entry 9 of the prior list is the one left out. -/
theorem saveToHistory_newest_first_bounded (r : Render) (newStory date : String) (s : State) :
    let entry : HistoryEntry :=
      { date := date, story := newStory, prompt := r.prompt, genre := r.genre,
        tone := r.tone, theme := r.theme }
    let stored := (saveToHistory r newStory date s).react.storyHistory
    stored = (entry :: r.storyHistory).take 10 ∧
    (saveToHistory r newStory date s).localStorage = some stored ∧
    stored.length ≤ 10 ∧
    stored = entry :: r.storyHistory.take 9 ∧
    (r.storyHistory.length = 10 →
      stored.length = 10 ∧
      (∀ i, i < 9 → stored[i + 1]? = r.storyHistory[i]?) ∧
      stored ++ r.storyHistory.drop 9 = entry :: r.storyHistory ∧
      (r.storyHistory.drop 9).length = 1) := by
  intro entry stored
  have h1 : stored = (entry :: r.storyHistory).take 10 := rfl
  have h2 : stored = entry :: r.storyHistory.take 9 := rfl
  refine ⟨h1, rfl, ?_, h2, ?_⟩
  · rw [h1]
    exact List.length_take_le _ _
  · intro hlen
    refine ⟨?_, ?_, ?_, ?_⟩
    · rw [h2]
      simp [hlen]
    · intro i hi
      rw [h2]
      simp [List.getElem?_take, hi]
    · rw [h2]
      simp
    · simp [hlen]

/-- Instance of `saveToHistory_newest_first_bounded` at a prior history of ten
entries: ten entries are stored, the new one first, and the entry "9" is the
one left out. -/
theorem saveToHistory_newest_first_bounded_witness :
    tenEntries.length = 10 ∧
    (saveToHistory { (initialState none none).react with storyHistory := tenEntries }
        "new" "now" (initialState none none)).react.storyHistory.length = 10 ∧
    ((saveToHistory { (initialState none none).react with storyHistory := tenEntries }
        "new" "now" (initialState none none)).react.storyHistory.map fun e => e.story) =
      ["new", "0", "1", "2", "3", "4", "5", "6", "7", "8"] :=
  ⟨by decide,
   ((saveToHistory_newest_first_bounded
      { (initialState none none).react with storyHistory := tenEntries }
      "new" "now" (initialState none none)).2.2.2.2 (by decide)).1,
   by decide⟩

/-! ## Voice catalog -/

/-- C6 (as stated, refuted): with the voice "B" selected, a refresh with the
voices "A", "B" changes the selection to "A". -/
theorem loadVoices_overwrites_selection :
    ¬ (∀ (voices : List Voice) (s : State), s.react.selectedVoice ≠ "" →
        (loadVoices voices s).react.selectedVoice = s.react.selectedVoice) := by
  intro h
  have h1 := h [{ name := "A", lang := "en" }, { name := "B", lang := "en" }]
    { initialState none none with
      react := { (initialState none none).react with selectedVoice := "B" } }
    (by decide)
  revert h1
  decide

/-- C6 (amended): `loadVoices` replaces the cached voice list and sets the
selected voice, whatever it was, to the name of the first entry of the new
list, or to the empty string when the list is empty; nothing else changes. -/
theorem loadVoices_selects_first (voices : List Voice) (s : State) :
    (loadVoices voices s).react.availableVoices = voices ∧
    (loadVoices voices s).react.selectedVoice = ((voices.head?.map fun v => v.name).getD "") ∧
    (voices = [] → (loadVoices voices s).react.selectedVoice = "") ∧
    (∀ v rest, voices = v :: rest → (loadVoices voices s).react.selectedVoice = v.name) ∧
    (loadVoices voices s).react.isPlaying = s.react.isPlaying ∧
    (loadVoices voices s).react.story = s.react.story ∧
    (loadVoices voices s).currentParagraphRef = s.currentParagraphRef ∧
    (loadVoices voices s).speechSynthesis = s.speechSynthesis := by
  have key : ∀ v : Voice, (if truthy v.name then v.name else "") = v.name := by
    intro v
    by_cases h : truthy v.name = true
    · simp [h]
    · have hd : v.name.data = [] := by
        cases hv : v.name.data with
        | nil => rfl
        | cons a l => simp [truthy, hv] at h
      simp only [h]
      exact String.ext hd.symm
  refine ⟨rfl, ?_, ?_, ?_, rfl, rfl, rfl, rfl⟩
  · cases voices with
    | nil => rfl
    | cons v rest => exact key v
  · intro h
    subst h
    rfl
  · intro v rest h
    subst h
    exact key v

/-- Instance of `loadVoices_selects_first` with the voice "B" selected and the
new list "A", "B". -/
theorem loadVoices_selects_first_witness :
    (loadVoices [{ name := "A", lang := "en" }, { name := "B", lang := "en" }]
      { initialState none none with
        react := { (initialState none none).react with selectedVoice := "B" } }).react.selectedVoice
      = "A" :=
  (loadVoices_selects_first [{ name := "A", lang := "en" }, { name := "B", lang := "en" }]
    { initialState none none with
      react := { (initialState none none).react with selectedVoice := "B" } }).2.2.2.1
    { name := "A", lang := "en" } [{ name := "B", lang := "en" }] rfl

/-! ## Playback -/

theorem truthy_of_segment_ne_nil (story : String) (h : segment story ≠ []) :
    truthy story = true := by
  cases hd : story.data with
  | nil =>
    have : story = "" := String.ext hd
    subst this
    exact absurd (by decide) h
  | cons a l => simp [truthy, hd]

theorem spoken_append_cancel (s : State) (calls : List SynthCall) :
    spoken { s with speechSynthesis := calls ++ [SynthCall.cancel] } =
      spoken { s with speechSynthesis := calls } := by
  simp [spoken, List.filterMap_append]

theorem spoken_stopSpeech (s : State) : spoken (stopSpeech s) = spoken s := by
  simp [spoken, stopSpeech, List.filterMap_append]

/-- With an empty story `speakStory` only touches the cursor. -/
theorem speakStory_empty_story (r : Render) (b : Bool) (s : State)
    (h : truthy r.story = false) :
    speakStory r b s = if b then { s with currentParagraphRef := 0 } else s := by
  simp [speakStory, h]

/-- With a non-empty story `speakStory()` cancels, then speaks the utterance
for the cursor 0. -/
theorem speakStory_from_start (r : Render) (s : State) (h : truthy r.story = true) :
    speakStory r true s =
      { s with
        currentParagraphRef := 0
        utteranceRef := some (newUtterance r (segment r.story) 0)
        speechSynthesis := s.speechSynthesis ++
          [SynthCall.cancel, SynthCall.speak (newUtterance r (segment r.story) 0)]
        react := { s.react with isPlaying := true } } := by
  simp [speakStory, h]

/-- With a non-empty story `speakStory(false)` cancels, resets a cursor that
is past the end, and speaks the utterance for the cursor. -/
theorem speakStory_continue (r : Render) (s : State) (h : truthy r.story = true) :
    speakStory r false s =
      { s with
        currentParagraphRef :=
          if s.currentParagraphRef ≥ (segment r.story).length then 0 else s.currentParagraphRef
        utteranceRef := some (newUtterance r (segment r.story)
          (if s.currentParagraphRef ≥ (segment r.story).length then 0
           else s.currentParagraphRef))
        speechSynthesis := s.speechSynthesis ++
          [SynthCall.cancel, SynthCall.speak (newUtterance r (segment r.story)
            (if s.currentParagraphRef ≥ (segment r.story).length then 0
             else s.currentParagraphRef))]
        react := { s.react with isPlaying := true } } := by
  by_cases hc : s.currentParagraphRef ≥ (segment r.story).length
  · simp [speakStory, h, hc]
  · simp [speakStory, h, hc]

/-- The handler `onend` of an utterance created in a render with
`isPlaying = false` never chains: it resets the controller. -/
theorem onend_of_idle_render (u : Utterance) (s : State) (h : u.render.isPlaying = false) :
    onend u s =
      { s with react := { s.react with isPlaying := false }, currentParagraphRef := 0 } := by
  simp [onend, h]

/-- Started from an idle render with a non-empty story, playback issues one
request, for paragraph 0; its completion issues no further request and leaves
the controller idle with cursor 0, whatever the number of paragraphs. -/
theorem toggleSpeech_then_onend (s : State) (idle : s.react.isPlaying = false)
    (h : truthy s.react.story = true) :
    spoken (toggleSpeech s) = spoken s ++ [newUtterance s.react (segment s.react.story) 0] ∧
    (newUtterance s.react (segment s.react.story) 0).text = (segment s.react.story)[0]? ∧
    (toggleSpeech s).react.isPlaying = true ∧
    spoken (onend (newUtterance s.react (segment s.react.story) 0) (toggleSpeech s)) =
      spoken (toggleSpeech s) ∧
    (onend (newUtterance s.react (segment s.react.story) 0) (toggleSpeech s)).react.isPlaying
      = false ∧
    (onend (newUtterance s.react (segment s.react.story) 0) (toggleSpeech s)).currentParagraphRef
      = 0 := by
  have hu : (newUtterance s.react (segment s.react.story) 0).render.isPlaying = false := idle
  have ht : toggleSpeech s = speakStory s.react true s := by simp [toggleSpeech, idle]
  rw [onend_of_idle_render _ _ hu, ht, speakStory_from_start _ _ h]
  refine ⟨?_, rfl, rfl, rfl, rfl, rfl⟩
  simp [spoken, List.filterMap_append]

/-- C2 (evaluation of the code): for the story `"A\nB"`, whose paragraph
sequence is `["A", "B"]` (N = 2), playback started from Idle issues the request
for "A"; when its `onend` fires no request for "B" is issued: the only
request ever made is the one for "A", and the controller is idle with cursor 0
after the first completion. -/
theorem speakStory_chain_stops_after_first :
    segment "A\nB" = ["A", "B"] ∧
    (spoken (toggleSpeech (idleWith "A\nB"))).map (fun u => u.text) = [some "A"] ∧
    (toggleSpeech (idleWith "A\nB")).react.isPlaying = true ∧
    (∀ u ∈ spoken (toggleSpeech (idleWith "A\nB")),
      (spoken (onend u (toggleSpeech (idleWith "A\nB")))).map (fun v => v.text) = [some "A"] ∧
      (onend u (toggleSpeech (idleWith "A\nB"))).react.isPlaying = false ∧
      (onend u (toggleSpeech (idleWith "A\nB"))).currentParagraphRef = 0) := by
  have h := toggleSpeech_then_onend (idleWith "A\nB") rfl (by decide)
  refine ⟨by decide, by decide, by decide, ?_⟩
  intro u hu
  rw [h.1] at hu
  have hu1 : u = newUtterance (idleWith "A\nB").react (segment (idleWith "A\nB").react.story) 0 := by
    simpa [spoken, idleWith, initialState] using hu
  subst hu1
  refine ⟨?_, h.2.2.2.2.1, h.2.2.2.2.2⟩
  rw [h.2.2.2.1]
  decide

/-- With a non-empty story whose paragraph sequence is empty, `speakStory`
issues a request whose text is `undefined` and sets `isPlaying`. -/
theorem speakStory_blank_story (r : Render) (b : Bool) (s : State)
    (h : truthy r.story = true) (hempty : segment r.story = []) :
    spoken (speakStory r b s) = spoken s ++ [newUtterance r [] 0] ∧
    (newUtterance r [] 0).text = none ∧
    (speakStory r b s).react.isPlaying = true := by
  cases b
  · rw [speakStory_continue _ _ h, hempty]
    refine ⟨?_, rfl, rfl⟩
    simp [spoken, List.filterMap_append]
  · rw [speakStory_from_start _ _ h, hempty]
    refine ⟨?_, rfl, rfl⟩
    simp [spoken, List.filterMap_append]

/-- C4 (evaluation of the code): for the stories `"\n"` and `" \n "`, whose
paragraph sequences are empty, play from Idle issues a `speak` request (its
text is `undefined`) and sets `isPlaying` to true; for the empty story play
issues nothing and stays idle. -/
theorem speakStory_blank_story_speaks :
    segment "\n" = [] ∧
    (spoken (speakStory (idleWith "\n").react true (idleWith "\n"))).map (fun u => u.text)
      = [none] ∧
    (speakStory (idleWith "\n").react true (idleWith "\n")).react.isPlaying = true ∧
    segment " \n " = [] ∧
    (spoken (toggleSpeech (idleWith " \n "))).map (fun u => u.text) = [none] ∧
    (toggleSpeech (idleWith " \n ")).react.isPlaying = true ∧
    spoken (speakStory (idleWith "").react true (idleWith "")) = [] ∧
    (speakStory (idleWith "").react true (idleWith "")).react.isPlaying = false := by
  refine ⟨by decide, by decide, by decide, by decide, by decide, by decide, ?_, by decide⟩
  rfl

/-! ## Late completion after stop -/

/-- C8: for a story with a non-empty paragraph sequence, play from an idle
render (`speakStory` with either argument) hands one utterance to
`speechSynthesis.speak`; after `stopSpeech`, a late firing of that utterance's
`onend` leaves `isPlaying = false` and the cursor at 0, and no further `speak`
request is issued. -/
theorem late_onend_after_stop_stays_idle (s : State) (b : Bool)
    (idle : s.react.isPlaying = false) (nonempty : segment s.react.story ≠ []) :
    ∃ u : Utterance,
      (speakStory s.react b s).utteranceRef = some u ∧
      spoken (speakStory s.react b s) = spoken s ++ [u] ∧
      (speakStory s.react b s).react.isPlaying = true ∧
      (stopSpeech (speakStory s.react b s)).react.isPlaying = false ∧
      (onend u (stopSpeech (speakStory s.react b s))).react.isPlaying = false ∧
      (onend u (stopSpeech (speakStory s.react b s))).currentParagraphRef = 0 ∧
      spoken (onend u (stopSpeech (speakStory s.react b s))) =
        spoken (speakStory s.react b s) := by
  have h := truthy_of_segment_ne_nil _ nonempty
  cases b
  · refine ⟨newUtterance s.react (segment s.react.story)
      (if s.currentParagraphRef ≥ (segment s.react.story).length then 0
       else s.currentParagraphRef), ?_⟩
    rw [onend_of_idle_render _ _ idle, speakStory_continue _ _ h]
    refine ⟨rfl, ?_, rfl, rfl, rfl, rfl, ?_⟩
    · simp [spoken, List.filterMap_append]
    · simp [spoken, stopSpeech, List.filterMap_append]
  · refine ⟨newUtterance s.react (segment s.react.story) 0, ?_⟩
    rw [onend_of_idle_render _ _ idle, speakStory_from_start _ _ h]
    refine ⟨rfl, ?_, rfl, rfl, rfl, rfl, ?_⟩
    · simp [spoken, List.filterMap_append]
    · simp [spoken, stopSpeech, List.filterMap_append]

/-- Instance of `late_onend_after_stop_stays_idle` at the story `"A\nB"`. -/
theorem late_onend_after_stop_stays_idle_witness :
    (idleWith "A\nB").react.isPlaying = false ∧ segment (idleWith "A\nB").react.story ≠ [] ∧
    ∃ u : Utterance,
      (speakStory (idleWith "A\nB").react true (idleWith "A\nB")).utteranceRef = some u ∧
      spoken (speakStory (idleWith "A\nB").react true (idleWith "A\nB")) =
        spoken (idleWith "A\nB") ++ [u] ∧
      (speakStory (idleWith "A\nB").react true (idleWith "A\nB")).react.isPlaying = true ∧
      (stopSpeech (speakStory (idleWith "A\nB").react true (idleWith "A\nB"))).react.isPlaying
        = false ∧
      (onend u (stopSpeech
        (speakStory (idleWith "A\nB").react true (idleWith "A\nB")))).react.isPlaying = false ∧
      (onend u (stopSpeech
        (speakStory (idleWith "A\nB").react true (idleWith "A\nB")))).currentParagraphRef = 0 ∧
      spoken (onend u (stopSpeech (speakStory (idleWith "A\nB").react true (idleWith "A\nB")))) =
        spoken (speakStory (idleWith "A\nB").react true (idleWith "A\nB")) :=
  ⟨rfl, by decide,
   late_onend_after_stop_stays_idle (idleWith "A\nB") true rfl (by decide)⟩

/-! ## Cursor invariant -/

theorem inv_initialState (stored : Option (List HistoryEntry)) (apiKey : Option String) :
    Inv (initialState stored apiKey) := by
  refine ⟨rfl, ?_⟩
  intro u hu
  simp [spoken, initialState] at hu

theorem inv_of_same {s t : State} (hs : Inv s)
    (hc : t.currentParagraphRef = s.currentParagraphRef)
    (hl : t.speechSynthesis = s.speechSynthesis) : Inv t := by
  refine ⟨hc.trans hs.1, ?_⟩
  intro u hu
  apply hs.2 u
  simpa [spoken, hl] using hu

theorem inv_stopSpeech {s : State} (hs : Inv s) : Inv (stopSpeech s) := by
  refine ⟨rfl, ?_⟩
  intro u hu
  rw [spoken_stopSpeech] at hu
  exact hs.2 u hu

theorem inv_speakStory {s : State} (hs : Inv s) (r : Render) (b : Bool)
    (hr : r.isPlaying = false) : Inv (speakStory r b s) := by
  by_cases h : truthy r.story = true
  · have hcur : (if s.currentParagraphRef ≥ (segment r.story).length then 0
        else s.currentParagraphRef) = 0 := by
      rw [hs.1]
      split <;> rfl
    have hsp : ∀ i, spoken { s with
        currentParagraphRef := i
        utteranceRef := some (newUtterance r (segment r.story) i)
        speechSynthesis := s.speechSynthesis ++
          [SynthCall.cancel, SynthCall.speak (newUtterance r (segment r.story) i)]
        react := { s.react with isPlaying := true } } =
        spoken s ++ [newUtterance r (segment r.story) i] := by
      intro i
      simp [spoken, List.filterMap_append]
    cases b
    · rw [speakStory_continue _ _ h]
      refine ⟨hcur, ?_⟩
      intro u hu
      rw [hsp] at hu
      rcases List.mem_append.1 hu with hu | hu
      · exact hs.2 u hu
      · rw [List.mem_singleton.1 hu]
        exact hr
    · rw [speakStory_from_start _ _ h]
      refine ⟨rfl, ?_⟩
      intro u hu
      rw [hsp] at hu
      rcases List.mem_append.1 hu with hu | hu
      · exact hs.2 u hu
      · rw [List.mem_singleton.1 hu]
        exact hr
  · have h0 : truthy r.story = false := by simpa using h
    rw [speakStory_empty_story _ _ _ h0]
    cases b
    · exact hs
    · show Inv { s with currentParagraphRef := 0 }
      exact inv_of_same hs hs.1.symm rfl

theorem inv_step {s t : State} (hs : Inv s) (h : Step s t) : Inv t := by
  cases h with
  | mount voices =>
    refine inv_of_same hs ?_ ?_
    · unfold mount loadVoices
      cases s.localStorage <;> rfl
    · unfold mount loadVoices
      cases s.localStorage <;> rfl
  | loadVoices voices => exact inv_of_same hs rfl rfl
  | setPrompt v => exact inv_of_same hs rfl rfl
  | setGenre v => exact inv_of_same hs rfl rfl
  | setTone v => exact inv_of_same hs rfl rfl
  | setKeywords v => exact inv_of_same hs rfl rfl
  | setStoryLength v => exact inv_of_same hs rfl rfl
  | setTheme v => exact inv_of_same hs rfl rfl
  | setShowHistory => exact inv_of_same hs rfl rfl
  | setSelectedVoice v => exact inv_of_same hs rfl rfl
  | setSpeechRate v => exact inv_of_same hs rfl rfl
  | toggleSpeech =>
    unfold toggleSpeech
    by_cases hp : s.react.isPlaying = true
    · rw [if_pos hp]
      exact inv_stopSpeech hs
    · rw [if_neg hp]
      exact inv_speakStory hs _ _ (by simpa using hp)
  | stopSpeech => exact inv_stopSpeech hs
  | speakStory b _ idle => exact inv_speakStory hs _ _ idle
  | onend u _ issued =>
    rw [onend_of_idle_render _ _ (hs.2 u issued)]
    refine ⟨rfl, ?_⟩
    intro v hv
    exact hs.2 v hv
  | onerror u _ issued => exact inv_of_same hs rfl rfl
  | generateStory =>
    have h1 : Inv (stopSpeech { s with react :=
        { s.react with loading := true, error := "", characterDetails := "" } }) :=
      inv_stopSpeech (inv_of_same hs rfl rfl)
    refine inv_of_same h1 ?_ ?_
    · unfold generateStory
      simp only
      split
      · split <;> rfl
      · rfl
    · unfold generateStory
      simp only
      split
      · split <;> rfl
      · rfl
  | generateStoryCharacter profile => exact inv_of_same hs rfl rfl
  | generateStoryDone r text date => exact inv_of_same hs rfl rfl
  | generateStoryFail message => exact inv_of_same hs rfl rfl

theorem inv_reachable {s : State} (h : Reachable s) : Inv s := by
  induction h with
  | init stored apiKey => exact inv_initialState stored apiKey
  | step _ hst ih => exact inv_step ih hst

/-- C9: in every state reachable from the initial state by the events of the
component (`toggleSpeech`, `stopSpeech`, `speakStory` from an idle render,
`onend` and `onerror` of any utterance handed to `speak`, `generateStory` and
its resumptions, and the form and voice handlers), the cursor
`currentParagraphRef` is at least 0 and at most the length of the paragraph
sequence of the current story. -/
theorem cursor_within_paragraphs (s : State) (h : Reachable s) :
    0 ≤ s.currentParagraphRef ∧ s.currentParagraphRef ≤ (segment s.react.story).length := by
  have hi := inv_reachable h
  rw [hi.1]
  exact ⟨Nat.le_refl 0, Nat.zero_le _⟩

/-- Instance of `cursor_within_paragraphs` at the state reached by generating
the story `"A\nB"` and clicking Play. -/
theorem cursor_within_paragraphs_witness :
    Reachable playingSample ∧ playingSample.react.isPlaying = true ∧
    segment playingSample.react.story = ["A", "B"] ∧
    0 ≤ playingSample.currentParagraphRef ∧
    playingSample.currentParagraphRef ≤ (segment playingSample.react.story).length :=
  have hr : Reachable playingSample :=
    Reachable.step
      (Reachable.step
        (Reachable.step (Reachable.init none (some "key")) (Step.generateStory _))
        (Step.generateStoryDone _ _ _ _))
      (Step.toggleSpeech _)
  ⟨hr, by decide, by decide, cursor_within_paragraphs playingSample hr⟩

/-! ## Highlight -/

theorem highlighted_enumFrom (L : List String) (n i : Nat)
    (hall : ∀ l ∈ L, truthy l = true) :
    (((L.enumFrom n).filterMap fun x =>
        if truthy x.2 then
          some ({ key := x.1, highlighted := i == x.1 && true, text := x.2 } : RenderedParagraph)
        else none).filter (fun p => p.highlighted)).map (fun p => p.text) =
      if n ≤ i then (L[i - n]?).toList else [] := by
  induction L generalizing n with
  | nil => simp
  | cons a L ih =>
    have ha : truthy a = true := hall a (List.mem_cons_self a L)
    have ih1 := ih (n + 1) (fun l hl => hall l (List.mem_cons_of_mem a hl))
    simp only [List.enumFrom_cons, List.filterMap_cons, ha, if_true]
    by_cases hin : i = n
    · subst hin
      simp only [beq_self_eq_true, Bool.and_self, List.filter_cons_of_pos, List.map_cons]
      rw [ih1]
      simp
    · have hb : (i == n && true) = false := by simpa using hin
      rw [List.filter_cons_of_neg (by simpa using hin)]
      rw [ih1]
      by_cases hle : n ≤ i
      · have hlt : n + 1 ≤ i := by omega
        have hidx : i - n = (i - (n + 1)) + 1 := by omega
        rw [if_pos hle, if_pos hlt, hidx, List.getElem?_cons_succ]
      · have hlt : ¬ (n + 1 ≤ i) := by omega
        rw [if_neg hle, if_neg hlt]

/-- When no line of the story is blank, the highlighted paragraph at cursor
`i` while playing is the spoken one. -/
theorem highlight_eq_spoken_of_no_blank_line (story : String) (i : Nat)
    (hall : ∀ l ∈ split story '\n', isBlank l = false) :
    highlightedTexts story i true = ((segment story)[i]?).toList := by
  have hseg : segment story = split story '\n' := by
    rw [segment_eq_filter]
    apply List.filter_eq_self.2
    intro l hl
    simp [hall l hl]
  have htr : ∀ l ∈ split story '\n', truthy l = true := by
    intro l hl
    have hb := hall l hl
    cases hd : l.data with
    | nil =>
      simp [isBlank, hd] at hb
    | cons a t => simp [truthy, hd]
  have h := highlighted_enumFrom (split story '\n') 0 i htr
  rw [hseg]
  unfold highlightedTexts storyContainer
  simpa [List.enum] using h

/-- C10 (evaluation of the code): for the story `"\nA"`, after Play from Idle
the controller is playing with cursor 0 and speaks "A", while no rendered
paragraph is highlighted (line 0 of the split is empty); for `"A\n\nB"` with
cursor 1 the spoken paragraph is "B" and nothing is highlighted; for
`"A\n \nB"` with cursor 1 the spoken paragraph is "B" and the highlighted one
is the line `" "`. -/
theorem highlight_differs_from_spoken :
    (toggleSpeech (idleWith "\nA")).react.isPlaying = true ∧
    (toggleSpeech (idleWith "\nA")).currentParagraphRef = 0 ∧
    (spoken (toggleSpeech (idleWith "\nA"))).map (fun u => u.text) = [some "A"] ∧
    (segment "\nA")[0]? = some "A" ∧ highlightedTexts "\nA" 0 true = [] ∧
    (segment "A\n\nB")[1]? = some "B" ∧ highlightedTexts "A\n\nB" 1 true = [] ∧
    (segment "A\n \nB")[1]? = some "B" ∧ highlightedTexts "A\n \nB" 1 true = [" "] := by
  refine ⟨by decide, by decide, by decide, by decide, by decide, by decide, by decide,
    by decide, by decide⟩

end StoryGenerator
